import Mathlib

/-!
Verification of the job-tracking, remote-runner, provisioning and
scene-numbering components of the emit workflow codebase, via a shallow
embedding of the relevant Python functions into Lean.

Conventions of the embedding:
* Python strings are modelled as `List Char` (`PyStr`), so that every string
  operation is structural recursion and evaluates inside the kernel; Lean
  string literals are converted at the boundary with `String.toList`.
* The filesystem is explicit: a file that may be absent is an
  `Option PyStr` (its contents), a set of existing directories is a list of
  paths.
* Python exceptions are `Except String` results; the error string names the
  exception raised at that point of the source.
* `subprocess` outcomes and `os.path.exists` checks are fields of an explicit
  world state.
-/

/-- A Python string: a list of characters. -/
abbrev PyStr := List Char

/-- Python `sub in s` substring test. -/
def infixCheck (sub : PyStr) : PyStr → Bool
  | [] => sub.isEmpty
  | c :: rest => sub.isPrefixOf (c :: rest) || infixCheck sub rest

/-- Python membership test `sub in s`. -/
def containsSub (s sub : PyStr) : Bool :=
  infixCheck sub s

/-- Split a string at every character satisfying `p`, keeping empty pieces
(the behaviour of Python `s.split(sep)` for a one-character `sep`). -/
def splitPred (p : Char → Bool) : PyStr → List PyStr
  | [] => [[]]
  | c :: rest =>
    if p c then [] :: splitPred p rest
    else
      match splitPred p rest with
      | [] => [[c]]
      | piece :: pieces => (c :: piece) :: pieces

/-- Python `s.split('\n')`. -/
def splitNl (s : PyStr) : List PyStr :=
  splitPred (fun c => c == '\n') s

/-- Python `s.split()` (no argument): split on whitespace runs, dropping
empty pieces. -/
def pySplitWs (s : PyStr) : List PyStr :=
  (splitPred Char.isWhitespace s).filter (fun t => !t.isEmpty)

/-- Python `s.strip()`. -/
def pyStrip (s : PyStr) : PyStr :=
  ((s.dropWhile Char.isWhitespace).reverse.dropWhile Char.isWhitespace).reverse

/-! ## emit_workflow/slurm.py -/

/-- The scheduler's textual response to a query about an unknown job. -/
def invalidJobStr : PyStr := "Invalid job id specified".toList

/-- The header token looked for in squeue output lines. -/
def jobidHeader : PyStr := "JOBID".toList

/-- `_parse_squeue_state`, inner loop over `squeue_out.split('\n')`.
Skips lines containing `JOBID` and blank lines; on the first remaining line
returns column 4 (`line.split()[4]`), raising `IndexError` when that column
is missing; returns `"u"` when no line remains.  Note the source never
compares `line.split()[0]` against `job_id`. -/
def parseSqueueLines (job_id : Int) : List PyStr → Except String PyStr
  | [] => .ok ['u']
  | line :: rest =>
    if containsSub line jobidHeader then parseSqueueLines job_id rest
    else if (pyStrip line).isEmpty then parseSqueueLines job_id rest
    else
      match (pySplitWs line).get? 4 with
      | some state => .ok state
      | none => .error "IndexError"

/-- `_parse_squeue_state(squeue_out, job_id)`. -/
def parseSqueueState (squeue_out : PyStr) (job_id : Int) : Except String PyStr :=
  if containsSub squeue_out invalidJobStr then .ok ['u']
  else parseSqueueLines job_id (splitNl squeue_out)

/-- `_get_sbatch_errors(errfile)`: the file contents are `some s` when the
file exists, `none` when absent.  The source checks `os.path.exists` only to
log, then unconditionally does `open(errfile, "r")`, which raises
`FileNotFoundError` on an absent file. -/
def getSbatchErrors (errfile : Option PyStr) : Except String PyStr :=
  match errfile with
  | none => .error "FileNotFoundError"
  | some contents => .ok contents

/-- Outcome of one iteration of the `_track_job` polling loop. -/
inductive PollResult where
  | stillRunning (status : PyStr)
  | completedOk
  | completedWithErrors (errors : PyStr)
deriving DecidableEq, Repr

/-- One iteration of `SlurmJobTask._track_job`: parse the squeue output; on
`"u"` read the error file and classify (the `break` cases); any other state
leaves the loop running. -/
def trackPoll (squeue_out : PyStr) (job_id : Int) (errfile : Option PyStr) :
    Except String PollResult :=
  match parseSqueueState squeue_out job_id with
  | .error e => .error e
  | .ok status =>
    if status = ['u'] then
      match getSbatchErrors errfile with
      | .error e => .error e
      | .ok errors =>
        if errors.isEmpty then .ok .completedOk
        else .ok (.completedWithErrors errors)
    else .ok (.stillRunning status)

/-- `SlurmJobTask._track_job` run against a sequence of observations, each a
pair (squeue output, error-file contents).  `ok (some r)` means the loop hit
`break` with classification `r`; `ok none` means the loop was still polling
when the observations ran out. -/
def trackJob (job_id : Int) : List (PyStr × Option PyStr) → Except String (Option PollResult)
  | [] => .ok none
  | (squeue_out, errfile) :: rest =>
    match trackPoll squeue_out job_id errfile with
    | .error e => .error e
    | .ok (.stillRunning _) => trackJob job_id rest
    | .ok r => .ok (some r)

/-- The squeue output carries no data row for any job: either the scheduler's
textual invalid-id response, or every line is a header or blank. -/
def noDataRow (squeue_out : PyStr) : Bool :=
  containsSub squeue_out invalidJobStr ||
    (splitNl squeue_out).all
      (fun line => containsSub line jobidHeader || (pyStrip line).isEmpty)

theorem parseSqueueLines_all_skip (job_id : Int) (ls : List PyStr)
    (h : ls.all (fun line => containsSub line jobidHeader || (pyStrip line).isEmpty) = true) :
    parseSqueueLines job_id ls = .ok ['u'] := by
  induction ls with
  | nil => rfl
  | cons line rest ih =>
    simp only [List.all_cons, Bool.and_eq_true, Bool.or_eq_true] at h
    rcases h with ⟨hline, hrest⟩
    rcases hline with hjob | hblank
    · simp [parseSqueueLines, hjob, ih hrest]
    · simp only [parseSqueueLines]
      by_cases hj : containsSub line jobidHeader = true
      · simp [hj, ih hrest]
      · simp [hj, hblank, ih hrest]

theorem parseSqueueState_noDataRow (squeue_out : PyStr) (job_id : Int)
    (h : noDataRow squeue_out = true) :
    parseSqueueState squeue_out job_id = .ok ['u'] := by
  unfold noDataRow at h
  unfold parseSqueueState
  rcases Bool.or_eq_true _ _ |>.mp h with hinv | hall
  · simp [hinv]
  · by_cases hinv : containsSub squeue_out invalidJobStr = true
    · simp [hinv]
    · simp [hinv, parseSqueueLines_all_skip job_id _ hall]

/-- Claim C1: when the scheduler query carries no row for the job (including
the textual invalid-id response) and the error-stream file exists with
contents `s`, the tracker classifies the job `completedOk` when `s` is empty
and `completedWithErrors s` (surfacing the exact contents) otherwise, and the
polling loop terminates within that same poll cycle, whatever observations
would have followed. -/
theorem tracker_terminal_on_disappearance (squeue_out : PyStr) (job_id : Int)
    (s : PyStr) (rest : List (PyStr × Option PyStr))
    (h : noDataRow squeue_out = true) :
    trackJob job_id ((squeue_out, some s) :: rest) =
      .ok (some (if s.isEmpty then PollResult.completedOk
                 else PollResult.completedWithErrors s)) := by
  have hp := parseSqueueState_noDataRow squeue_out job_id h
  by_cases hs : s.isEmpty
  · simp [trackJob, trackPoll, hp, getSbatchErrors, hs]
  · simp only [Bool.not_eq_true] at hs
    simp [trackJob, trackPoll, hp, getSbatchErrors, hs]

/-- Witness for C1: an output with only a header line and an empty error file
classifies `completedOk`; an invalid-id response with a non-empty error file
classifies `completedWithErrors` carrying the exact contents, in both cases
ending the loop on that cycle. -/
theorem tracker_terminal_on_disappearance_witness :
    trackJob 42 [("JOBID PARTITION NAME".toList, some []),
                 ("ignored".toList, some "later".toList)] =
      .ok (some PollResult.completedOk) ∧
    trackJob 7 [("slurm_load_jobs error: Invalid job id specified".toList,
                 some "Traceback: boom".toList)] =
      .ok (some (PollResult.completedWithErrors "Traceback: boom".toList)) := by
  constructor
  · have h := tracker_terminal_on_disappearance "JOBID PARTITION NAME".toList 42 []
      [("ignored".toList, some "later".toList)] (by decide)
    simpa using h
  · have h := tracker_terminal_on_disappearance
      "slurm_load_jobs error: Invalid job id specified".toList 7 "Traceback: boom".toList
      [] (by decide)
    simpa using h

/-- Counterexample to C2: an absent error-stream file is not treated
identically to an empty one — `_get_sbatch_errors` logs that the file is
missing but still calls `open(errfile, "r")`, which raises
`FileNotFoundError`, while an existing empty file yields the empty result. -/
theorem getSbatchErrors_absent_raises :
    getSbatchErrors none = .error "FileNotFoundError" ∧
    getSbatchErrors (some []) = .ok [] ∧
    getSbatchErrors none ≠ getSbatchErrors (some []) := by
  refine ⟨rfl, rfl, ?_⟩
  intro h
  cases h

/-- Claim C2 as amended: at candidate-terminal time the error-stream read
returns the exact contents of an existing file (an existing empty file reads
as empty, so classification proceeds to `completedOk`), but an absent file is
not treated as empty: the `os.path.exists` check only logs, the unconditional
`open` raises `FileNotFoundError`, and that exception propagates out of the
poll instead of any classification being made. -/
theorem getSbatchErrors_amended (s : PyStr) (squeue_out : PyStr) (job_id : Int)
    (h : noDataRow squeue_out = true) :
    getSbatchErrors (some s) = .ok s ∧
    trackPoll squeue_out job_id (some []) = .ok .completedOk ∧
    getSbatchErrors none = .error "FileNotFoundError" ∧
    trackPoll squeue_out job_id none = .error "FileNotFoundError" := by
  have hp := parseSqueueState_noDataRow squeue_out job_id h
  exact ⟨rfl, by simp [trackPoll, hp, getSbatchErrors], rfl,
         by simp [trackPoll, hp, getSbatchErrors]⟩

/-- Witness for the amended C2: on the invalid-id response, an existing empty
error file classifies `completedOk` while an absent one raises
`FileNotFoundError` out of the poll. -/
theorem getSbatchErrors_amended_witness :
    getSbatchErrors (some "Traceback".toList) = .ok "Traceback".toList ∧
    trackPoll "Invalid job id specified".toList 42 (some []) = .ok .completedOk ∧
    getSbatchErrors none = .error "FileNotFoundError" ∧
    trackPoll "Invalid job id specified".toList 42 none = .error "FileNotFoundError" :=
  getSbatchErrors_amended "Traceback".toList "Invalid job id specified".toList 42 (by decide)

/-- Claim C3 (code bug): `_parse_squeue_state` never compares the row's job-id
column with the queried id, contradicting its docstring ("Returns state for
the *first* job matching job_id ... Returns 'u' if ... job_id is not found"):
an output whose only data row belongs to job 999 yields that row's
continue-polling state `"R"` for a query about job 123 instead of `"u"`. -/
theorem parseSqueueState_ignores_job_id :
    parseSqueueState
      "JOBID PARTITION NAME USER ST TIME\n999 debug somejob user R 0:01".toList 123 =
      .ok ['R'] ∧ (999 : Int) ≠ 123 := by
  constructor
  · rfl
  · decide

/-! ## emit_main/workflow/slurm_runner.py -/

/-- Python `s.replace(pat, rep)` (non-overlapping, left to right), with
explicit fuel so the recursion is structural; `fuel = s.length` suffices for
a non-empty pattern. -/
def pyReplaceFuel (pat rep : PyStr) : Nat → PyStr → PyStr
  | 0, s => s
  | _ + 1, [] => []
  | fuel + 1, c :: rest =>
    if pat.isPrefixOf (c :: rest) then
      rep ++ pyReplaceFuel pat rep fuel ((c :: rest).drop pat.length)
    else
      c :: pyReplaceFuel pat rep fuel rest

/-- Python `s.replace(pat, rep)` for a non-empty pattern. -/
def pyReplace (s pat rep : PyStr) : PyStr :=
  pyReplaceFuel pat rep s.length s

/-- The fields of the unpickled job instance used by
`_do_work_on_compute_node`: the shared scratch directory created by
`SlurmJobTask._init_local`, the node-local temporary directory, and the
Work Unit's partition and verbosity level. -/
structure RunnerJob where
  tmp_dir : PyStr
  local_tmp_dir : PyStr
  partition : PyStr
  level : PyStr
deriving DecidableEq, Repr

/-- How the call `job.work()` ends on the compute node. -/
inductive WorkOutcome where
  | success
  | runtimeError (msg : String)
  | otherError (msg : String)
deriving DecidableEq, Repr

/-- Observable filesystem effects and the propagated exception of
`_do_work_on_compute_node`. -/
structure RunnerTrace where
  relocatedTo : Option PyStr
  deletedLocalTmp : Bool
  raised : Option String
deriving DecidableEq, Repr

/-- `error_tmp_dir` as computed in the `except RuntimeError` handler:
`job.tmp_dir.replace("/tmp/", "/error/") + "_tmp"`. -/
def errorTmpDir (j : RunnerJob) : PyStr :=
  pyReplace j.tmp_dir "/tmp/".toList "/error/".toList ++ "_tmp".toList

/-- The debug partition name. -/
def debugPartition : PyStr := "debug".toList

/-- The debug verbosity level. -/
def debugLevel : PyStr := "DEBUG".toList

/-- The cleanup guard of the `finally` block:
`job.partition != "debug" or (job.partition == "debug" and job.level != "DEBUG")`. -/
def cleanupGuard (j : RunnerJob) : Bool :=
  !(j.partition = debugPartition : Bool) ||
    ((j.partition = debugPartition : Bool) && !(j.level = debugLevel : Bool))

/-- The `try/except RuntimeError/finally` block of `_do_work_on_compute_node`:
on a `RuntimeError` the node-local tmp dir is copied to `errorTmpDir` and the
exception re-raised; the `finally` block deletes the node-local tmp dir
unless the debug-partition/DEBUG-level exception applies; any other exception
propagates with no relocation. -/
def doWorkOnComputeNode (j : RunnerJob) (outcome : WorkOutcome) : RunnerTrace :=
  match outcome with
  | .success => ⟨none, cleanupGuard j, none⟩
  | .runtimeError msg => ⟨some (errorTmpDir j), cleanupGuard j, some msg⟩
  | .otherError msg => ⟨none, cleanupGuard j, some msg⟩

/-- Claim C4: exactly the recoverable failure kind (`RuntimeError`) triggers
relocation of the node-local tmp dir to the scratch path with `/tmp/`
replaced by `/error/` and `_tmp` appended, after which the original failure
is re-raised; any other failure propagates without relocation; and on the
canonical layout the substitution produces the sibling error area. -/
theorem runner_relocation_on_runtime_error :
    (∀ (j : RunnerJob) (msg : String),
      (doWorkOnComputeNode j (.runtimeError msg)).relocatedTo =
        some (pyReplace j.tmp_dir "/tmp/".toList "/error/".toList ++ "_tmp".toList) ∧
      (doWorkOnComputeNode j (.runtimeError msg)).raised = some msg ∧
      (doWorkOnComputeNode j (.otherError msg)).relocatedTo = none ∧
      (doWorkOnComputeNode j (.otherError msg)).raised = some msg ∧
      (doWorkOnComputeNode j .success).relocatedTo = none) ∧
    errorTmpDir ⟨"/beegfs/scratch/tmp/emit123_Task_v20220101t000000".toList,
                 "/local/tmp/inst1".toList, "batch".toList, "INFO".toList⟩ =
      "/beegfs/scratch/error/emit123_Task_v20220101t000000_tmp".toList := by
  constructor
  · intro j msg
    exact ⟨rfl, rfl, rfl, rfl, rfl⟩
  · rfl

/-- Claim C5: on every exit path of `_do_work_on_compute_node` — success,
recoverable failure or any other failure — the node-local temporary directory
is deleted, except exactly when the partition is `debug` and the level is
`DEBUG`. -/
theorem runner_cleanup_on_all_paths (j : RunnerJob) (outcome : WorkOutcome) :
    (doWorkOnComputeNode j outcome).deletedLocalTmp = false ↔
      (j.partition = debugPartition ∧ j.level = debugLevel) := by
  have hguard : cleanupGuard j = false ↔
      (j.partition = debugPartition ∧ j.level = debugLevel) := by
    unfold cleanupGuard
    by_cases hp : j.partition = debugPartition <;>
      by_cases hl : j.level = debugLevel <;> simp [hp, hl]
  cases outcome <;> simpa [doWorkOnComputeNode] using hguard

/-! ## emit_workflow/pge.py -/

/-- The world `PGE.build` operates in: which artifacts exist on disk, what
the cloned repository will contain, and which subprocess steps would fail.
`repoDirExists` is `os.path.exists(self.repo_dir)`, `condaEnvExists` is
`self._conda_env_exists()`, `envYmlExists`/`installShExists` are the
`os.path.exists` checks inside `_create_conda_env`/`_install_repo`, and the
`*Fails` flags are the non-zero-returncode outcomes of the corresponding
`subprocess.run` calls. -/
structure PgeWorld where
  repoDirExists : Bool
  condaEnvExists : Bool
  envYmlExists : Bool
  installShExists : Bool
  cloneFails : Bool
  createEnvFails : Bool
  installFails : Bool
deriving DecidableEq, Repr

/-- What one call of `PGE.build` did: the resulting world, how many times
each subprocess step actually ran, what the `except` handler printed, and
what exception escaped to the caller. -/
structure BuildOutcome where
  world : PgeWorld
  cloneCalls : Nat
  createEnvCalls : Nat
  installCalls : Nat
  printed : Option String
  raisedToCaller : Option String
deriving DecidableEq, Repr

/-- `PGE._clone_repo`: runs `git clone`; raises `RuntimeError` on a non-zero
return code, otherwise the repo directory now exists.  Returns the new world,
the number of clone commands run, and the raised message if any. -/
def cloneRepoStep (w : PgeWorld) : PgeWorld × Nat × Option String :=
  if w.cloneFails then (w, 1, some "Failed to clone repo")
  else ({ w with repoDirExists := true }, 1, none)

/-- `PGE._create_conda_env`: a no-op unless `environment.yml` exists in the
cloned repo; raises `RuntimeError` on a non-zero return code. -/
def createCondaEnvStep (w : PgeWorld) : PgeWorld × Nat × Option String :=
  if w.envYmlExists then
    if w.createEnvFails then (w, 1, some "Failed to create conda env")
    else ({ w with condaEnvExists := true }, 1, none)
  else (w, 0, none)

/-- `PGE._install_repo`: a no-op unless `install.sh` exists in the cloned
repo; raises `RuntimeError` on a non-zero return code. -/
def installRepoStep (w : PgeWorld) : PgeWorld × Nat × Option String :=
  if w.installShExists then
    if w.installFails then (w, 1, some "Failed to install repo")
    else (w, 1, none)
  else (w, 0, none)

/-- The `except RuntimeError` handler of `PGE.build`: `rm -rf self.repo_dir`,
then `conda env remove` if the environment exists. -/
def buildCleanup (w : PgeWorld) : PgeWorld :=
  { w with repoDirExists := false, condaEnvExists := false }

/-- `PGE.build`: if the repo directory exists, do nothing; otherwise clone,
create the conda environment when it does not already exist, and install.
A `RuntimeError` from any step reaches the handler, which cleans up and
`print`s the exception — the exception is not re-raised, so nothing ever
propagates to the caller. -/
def build (w : PgeWorld) : BuildOutcome :=
  if w.repoDirExists then ⟨w, 0, 0, 0, none, none⟩
  else
    match cloneRepoStep w with
    | (w1, n1, some e) => ⟨buildCleanup w1, n1, 0, 0, some e, none⟩
    | (w1, n1, none) =>
      match (if w1.condaEnvExists then (w1, 0, none) else createCondaEnvStep w1) with
      | (w2, n2, some e) => ⟨buildCleanup w2, n1, n2, 0, some e, none⟩
      | (w2, n2, none) =>
        match installRepoStep w2 with
        | (w3, n3, some e) => ⟨buildCleanup w3, n1, n2, n3, some e, none⟩
        | (w3, n3, none) => ⟨w3, n1, n2, n3, none, none⟩

/-- Counterexample to C6: with the repo absent, the conda env absent, both an
`environment.yml` and an `install.sh` in the repo, clone and env creation
succeeding but the install failing, `PGE.build` rolls back — yet the caller
gets nothing: the `RuntimeError` is only printed and `build` returns
normally, indistinguishable from success. -/
theorem pge_build_swallows_failure :
    (build ⟨false, false, true, true, false, false, true⟩).raisedToCaller = none ∧
    (build ⟨false, false, true, true, false, false, true⟩).printed =
      some "Failed to install repo" ∧
    (build ⟨false, false, true, true, false, false, true⟩).installCalls = 1 := by
  exact ⟨rfl, rfl, rfl⟩

/-- Claim C6 as amended: whenever a provisioning step fails (something was
printed by the handler), the partially-cloned repo directory and the
partially-created conda environment are both gone afterwards, and the
failure is only printed — `build` raises nothing to the caller. -/
theorem pge_build_rollback (w : PgeWorld)
    (hfail : (build w).printed.isSome = true) :
    (build w).world.repoDirExists = false ∧
    (build w).world.condaEnvExists = false ∧
    (build w).raisedToCaller = none := by
  rcases w with ⟨r, c, y, i, cf, ef, jf⟩
  cases r <;> cases c <;> cases y <;> cases i <;> cases cf <;> cases ef <;> cases jf <;>
    simp_all [build, cloneRepoStep, createCondaEnvStep, installRepoStep, buildCleanup]

/-- Witness for the amended C6: a failing install leaves neither repo
directory nor conda environment behind and raises nothing. -/
theorem pge_build_rollback_witness :
    (build ⟨false, false, true, true, false, false, true⟩).world.repoDirExists = false ∧
    (build ⟨false, false, true, true, false, false, true⟩).world.condaEnvExists = false ∧
    (build ⟨false, false, true, true, false, false, true⟩).raisedToCaller = none :=
  pge_build_rollback ⟨false, false, true, true, false, false, true⟩ (by decide)

/-- Claim C10: `PGE.build` is idempotent.  Starting from a world where the
repo directory is absent, no step fails and an `install.sh` is present, the
first call clones exactly once and installs exactly once, leaves the repo
directory in place and reports no failure; the second call on the resulting
world is a no-op returning the world unchanged with zero clone, env-create
and install actions. -/
theorem pge_build_idempotent (w : PgeWorld)
    (hr : w.repoDirExists = false) (hc : w.cloneFails = false)
    (he : w.createEnvFails = false) (hi : w.installFails = false)
    (hs : w.installShExists = true) :
    (build w).cloneCalls = 1 ∧
    (build w).installCalls = 1 ∧
    (build w).printed = none ∧
    (build w).raisedToCaller = none ∧
    (build w).world.repoDirExists = true ∧
    build (build w).world = ⟨(build w).world, 0, 0, 0, none, none⟩ := by
  rcases w with ⟨r, c, y, i, cf, ef, jf⟩
  subst hr hc he hi hs
  cases c <;> cases y <;>
    simp [build, cloneRepoStep, createCondaEnvStep, installRepoStep]

/-- Witness for C10: concrete first build performs the work, second build is
the identity no-op. -/
theorem pge_build_idempotent_witness :
    (build ⟨false, false, true, true, false, false, false⟩).cloneCalls = 1 ∧
    (build ⟨false, false, true, true, false, false, false⟩).installCalls = 1 ∧
    (build ⟨false, false, true, true, false, false, false⟩).printed = none ∧
    (build ⟨false, false, true, true, false, false, false⟩).raisedToCaller = none ∧
    (build ⟨false, false, true, true, false, false, false⟩).world.repoDirExists = true ∧
    build (build ⟨false, false, true, true, false, false, false⟩).world =
      ⟨(build ⟨false, false, true, true, false, false, false⟩).world, 0, 0, 0, none, none⟩ :=
  pge_build_idempotent ⟨false, false, true, true, false, false, false⟩ rfl rfl rfl rfl rfl

/-! ## SlurmJobTask._init_local (emit_workflow/slurm.py) -/

theorem pyReplace_single_char (b : Char) (rep : PyStr) (s : PyStr) :
    pyReplace s [b] rep = s.flatMap (fun c => if c = b then rep else [c]) := by
  show pyReplaceFuel [b] rep s.length s = _
  induction s with
  | nil => rfl
  | cons c rest ih =>
    simp only [List.length_cons, pyReplaceFuel, List.isPrefixOf, List.flatMap_cons]
    by_cases hc : c = b
    · simp [hc, List.isPrefixOf, ih]
    · have : (b == c) = false := by simp [Ne.symm hc]
      simp [this, hc, ih]

theorem mem_pyReplace_single (b : Char) (rep : PyStr) (s : PyStr) (c : Char)
    (h : c ∈ pyReplace s [b] rep) : c ∈ rep ∨ (c ∈ s ∧ c ≠ b) := by
  rw [pyReplace_single_char] at h
  rcases List.mem_flatMap.mp h with ⟨a, ha, hc⟩
  by_cases hab : a = b
  · subst hab
    simp only [if_pos rfl] at hc
    exact Or.inl hc
  · simp only [if_neg hab, List.mem_singleton] at hc
    subst hc
    exact Or.inr ⟨ha, hab⟩

/-- The fixed scratch root used by `_init_local`. -/
def baseTmpDir : PyStr := "/beegfs/scratch/tmp/".toList

/-- The folder-name construction and sanitization of `_init_local`:
`folder_name = acquisition_id + "_" + task_family + "_v" + timestamp`, then
the replacement loop over `[(' ',''),('(','_'),(')','_'),(',','_'),('/','_')]`.
Note that the space is replaced with the empty string, not an underscore,
and that the double-quote character is not in the replacement list. -/
def sanitizeFolderName (acquisition_id task_family timestamp : PyStr) : PyStr :=
  let f0 := acquisition_id ++ "_".toList ++ task_family ++ "_v".toList ++ timestamp
  let f1 := pyReplace f0 [' '] []
  let f2 := pyReplace f1 ['('] ['_']
  let f3 := pyReplace f2 [')'] ['_']
  let f4 := pyReplace f3 [','] ['_']
  pyReplace f4 ['/'] ['_']

/-- `self.tmp_dir = os.path.join(base_tmp_dir, folder_name)` followed by
`self.tmp_dir = self.tmp_dir[:max_filename_length]` — the whole path, not
just the folder name, is truncated. -/
def tmpDirPath (acquisition_id task_family timestamp : PyStr) (namemax : Nat) : PyStr :=
  (baseTmpDir ++ sanitizeFolderName acquisition_id task_family timestamp).take namemax

/-- Counterexample to C7: the double-quote is not sanitized — an identity
containing `"` yields a folder name still containing `"` — and the space is
removed rather than replaced with an underscore. -/
theorem sanitize_keeps_double_quote :
    '"' ∈ sanitizeFolderName "emit 0\"123".toList "Task".toList "20220101t000000".toList ∧
    sanitizeFolderName "a b".toList "T".toList "1".toList = "ab_T_v1".toList := by
  constructor
  · decide
  · rfl

/-- Claim C7 as amended: the sanitized folder name contains no character of
{space, (, ), comma, /} — the space is removed, the other four are replaced
with underscore, while the double-quote is left untouched — and the truncated
path (hence the directory name) never exceeds the filesystem's maximum
filename length. -/
theorem sanitize_removes_listed_chars (acquisition_id task_family timestamp : PyStr)
    (namemax : Nat) :
    ((sanitizeFolderName acquisition_id task_family timestamp).all
      (fun c => !([' ', '(', ')', ',', '/'].contains c)) = true) ∧
    (tmpDirPath acquisition_id task_family timestamp namemax).length ≤ namemax := by
  constructor
  · rw [List.all_eq_true]
    intro c hc
    simp only [sanitizeFolderName] at hc
    rcases mem_pyReplace_single _ _ _ _ hc with h4 | ⟨hc, hslash⟩
    · simp at h4
      simp [h4]
    rcases mem_pyReplace_single _ _ _ _ hc with h3 | ⟨hc, hcomma⟩
    · simp at h3
      simp [h3]
    rcases mem_pyReplace_single _ _ _ _ hc with h2 | ⟨hc, hrpar⟩
    · simp at h2
      simp [h2]
    rcases mem_pyReplace_single _ _ _ _ hc with h1 | ⟨hc, hlpar⟩
    · simp at h1
      simp [h1]
    rcases mem_pyReplace_single _ _ _ _ hc with h0 | ⟨hc, hspace⟩
    · simp at h0
    simp [hspace, hlpar, hrpar, hcomma, hslash]
  · calc (tmpDirPath acquisition_id task_family timestamp namemax).length
        ≤ namemax := by
          unfold tmpDirPath
          rw [List.length_take]
          exact min_le_left _ _

/-! ## Scratch-path uniqueness (emit_workflow/slurm.py, `_init_local`) -/

/-- One Work Unit instance as `_init_local` sees it: the identity fields that
enter the folder name, plus the sub-second part of the creation instant,
which the `strftime("%Y%m%dt%H%M%S")` timestamp format discards. -/
structure WorkUnitInstance where
  acquisition_id : PyStr
  task_family : PyStr
  secondStamp : PyStr
  micros : Nat
deriving DecidableEq, Repr

/-- The scratch directory `_init_local` allocates for an instance. -/
def instanceTmpDir (u : WorkUnitInstance) (namemax : Nat) : PyStr :=
  tmpDirPath u.acquisition_id u.task_family u.secondStamp namemax

/-- `os.makedirs(path)` (no `exist_ok`): raises `FileExistsError` when the
directory already exists, otherwise creates it. -/
def makedirs (fs : List PyStr) (p : PyStr) : Except String (List PyStr) :=
  if p ∈ fs then .error "FileExistsError" else .ok (p :: fs)

/-- The directory-creating step of `_init_local` for an instance. -/
def initLocalDirs (fs : List PyStr) (u : WorkUnitInstance) (namemax : Nat) :
    Except String (List PyStr) :=
  makedirs fs (instanceTmpDir u namemax)

/-- Counterexample to C8: two distinct Work Unit instances created within the
same second with identical identity and task kind receive identical — not
distinct — scratch directory paths, because the timestamp format has only
second resolution. -/
theorem same_second_same_tmp_dir :
    (⟨"emit20220101".toList, "L1AReassembleRaw".toList, "20220101t120000".toList, 0⟩ :
        WorkUnitInstance) ≠
      ⟨"emit20220101".toList, "L1AReassembleRaw".toList, "20220101t120000".toList, 999999⟩ ∧
    instanceTmpDir
        ⟨"emit20220101".toList, "L1AReassembleRaw".toList, "20220101t120000".toList, 0⟩ 255 =
      instanceTmpDir
        ⟨"emit20220101".toList, "L1AReassembleRaw".toList, "20220101t120000".toList, 999999⟩
        255 := by
  constructor
  · intro h
    cases h
  · rfl

/-- Claim C8 as amended: two Work Unit instances whose identity, task kind
and formatted (second-resolution) timestamp coincide are allocated the very
same scratch path, and after the first instance creates the directory the
second instance's `os.makedirs` raises `FileExistsError` instead of silently
sharing the directory. -/
theorem same_second_collision (u1 u2 : WorkUnitInstance) (n : Nat)
    (fs fs' : List PyStr)
    (ha : u1.acquisition_id = u2.acquisition_id)
    (ht : u1.task_family = u2.task_family)
    (hs : u1.secondStamp = u2.secondStamp)
    (h1 : initLocalDirs fs u1 n = .ok fs') :
    instanceTmpDir u1 n = instanceTmpDir u2 n ∧
    initLocalDirs fs' u2 n = .error "FileExistsError" := by
  have heq : instanceTmpDir u1 n = instanceTmpDir u2 n := by
    unfold instanceTmpDir
    rw [ha, ht, hs]
  refine ⟨heq, ?_⟩
  unfold initLocalDirs makedirs at h1 ⊢
  rw [← heq]
  by_cases hmem : instanceTmpDir u1 n ∈ fs
  · simp [hmem] at h1
  · simp only [if_neg hmem, Except.ok.injEq] at h1
    subst h1
    simp

/-- Witness for the amended C8: a concrete same-second pair collides and the
second creation fails. -/
theorem same_second_collision_witness :
    instanceTmpDir
        ⟨"emit20220101".toList, "L1AReassembleRaw".toList, "20220101t120000".toList, 0⟩ 255 =
      instanceTmpDir
        ⟨"emit20220101".toList, "L1AReassembleRaw".toList, "20220101t120000".toList, 7⟩ 255 ∧
    initLocalDirs
        [instanceTmpDir
          ⟨"emit20220101".toList, "L1AReassembleRaw".toList, "20220101t120000".toList, 0⟩ 255]
        ⟨"emit20220101".toList, "L1AReassembleRaw".toList, "20220101t120000".toList, 7⟩ 255 =
      .error "FileExistsError" :=
  same_second_collision
    ⟨"emit20220101".toList, "L1AReassembleRaw".toList, "20220101t120000".toList, 0⟩
    ⟨"emit20220101".toList, "L1AReassembleRaw".toList, "20220101t120000".toList, 7⟩
    255 [] _ rfl rfl rfl rfl

/-! ## emit_main/workflow/daac_helper_tasks.py — AssignDAACSceneNumbers.work -/

/-- Lexicographic comparison of Python strings by code point, the order used
by `list.sort()`. -/
def charListLe : PyStr → PyStr → Bool
  | [], _ => true
  | _ :: _, [] => false
  | a :: as, b :: bs => if a = b then charListLe as bs else decide (a < b)

theorem charListLe_total (a b : PyStr) : charListLe a b = true ∨ charListLe b a = true := by
  induction a generalizing b with
  | nil => left; rfl
  | cons x xs ih =>
    cases b with
    | nil => right; rfl
    | cons y ys =>
      by_cases hxy : x = y
      · subst hxy
        rcases ih ys with h | h
        · left; simpa [charListLe] using h
        · right; simpa [charListLe] using h
      · rcases lt_or_gt_of_ne hxy with hlt | hgt
        · left; simp [charListLe, hxy, hlt]
        · right; simp [charListLe, Ne.symm hxy, hgt]

theorem charListLe_trans (a b c : PyStr) (hab : charListLe a b = true)
    (hbc : charListLe b c = true) : charListLe a c = true := by
  induction a generalizing b c with
  | nil => rfl
  | cons x xs ih =>
    cases b with
    | nil => simp [charListLe] at hab
    | cons y ys =>
      cases c with
      | nil => simp [charListLe] at hbc
      | cons z zs =>
        simp only [charListLe] at hab hbc ⊢
        by_cases hxy : x = y
        · subst hxy
          rw [if_pos rfl] at hab
          by_cases hxz : x = z
          · subst hxz
            rw [if_pos rfl] at hbc ⊢
            exact ih ys zs hab hbc
          · rw [if_neg hxz] at hbc ⊢
            exact hbc
        · rw [if_neg hxy] at hab
          have hltxy : x < y := of_decide_eq_true hab
          by_cases hyz : y = z
          · subst hyz
            rw [if_neg hxy]
            exact hab
          · rw [if_neg hyz] at hbc
            have hltyz : y < z := of_decide_eq_true hbc
            have hltxz : x < z := lt_trans hltxy hltyz
            rw [if_neg (ne_of_lt hltxz)]
            exact decide_eq_true hltxz

instance : IsTotal PyStr (fun a b => charListLe a b = true) := ⟨charListLe_total⟩

instance : IsTrans PyStr (fun a b => charListLe a b = true) := ⟨charListLe_trans⟩

/-- Python `str(n)` for a natural number. -/
def natStr (n : Nat) : PyStr := Nat.toDigits 10 n

/-- Python `s.zfill(width)` for an unsigned string of digits. -/
def pyZfill (width : Nat) (s : PyStr) : PyStr :=
  List.replicate (width - s.length) '0' ++ s

/-- `str(daac_scene).zfill(3)`. -/
def sceneStr (n : Nat) : PyStr := pyZfill 3 (natStr n)

/-- One acquisition record as the task reads it: its `acquisition_id` and
whether the `"daac_scene"` key is present. -/
structure Acq where
  acquisition_id : PyStr
  hasDaacScene : Bool
deriving DecidableEq, Repr

/-- The database writes performed by `AssignDAACSceneNumbers.work`:
per-acquisition metadata updates `(acq_id, daac_scene string)`, the
per-acquisition log entries (one per update, carrying the same scene
string), and the rollup orbit-log entries (each carrying
`number_of_scenes`). -/
structure DaacWorkEffects where
  metadataUpdates : List (PyStr × PyStr)
  acqLogEntries : List (PyStr × PyStr)
  orbitLogEntries : List Nat
deriving DecidableEq, Repr

/-- `acq_ids = list(set(acq_ids)); acq_ids.sort()` — deduplicate, then sort
ascending. -/
def sortIds (l : List PyStr) : List PyStr :=
  List.insertionSort (fun a b => charListLe a b = true) l.dedup

/-- The assignment loop `for acq_id in acq_ids:` with the running counter
`daac_scene` starting at `k`: returns the `(acq_id, scene string)` updates in
order together with the counter's final value. -/
def assignLoop : List PyStr → Nat → List (PyStr × PyStr) × Nat
  | [], k => ([], k)
  | ident :: rest, k =>
    let r := assignLoop rest (k + 1)
    ((ident, sceneStr k) :: r.1, r.2)

/-- `AssignDAACSceneNumbers.work` over the acquisitions found for the orbit:
raise `RuntimeError` when, without `override_output`, some but not all
acquisitions already carry a scene number (`0 < count < len(acquisitions)`);
otherwise assign `str(n).zfill(3)` for `n = 1, 2, ...` over the
deduplicated, sorted acquisition ids, logging once per acquisition, and
append one orbit rollup entry carrying `daac_scene - 1`. -/
def assignDaacSceneNumbers (acquisitions : List Acq) (override_output : Bool) :
    Except String DaacWorkEffects :=
  if !override_output &&
      decide (0 < (acquisitions.filter (fun a => a.hasDaacScene)).length) &&
      decide ((acquisitions.filter (fun a => a.hasDaacScene)).length < acquisitions.length) then
    .error "While assigning scene numbers for DAAC, found some with scene numbers already. Aborting..."
  else
    .ok ⟨(assignLoop (sortIds (acquisitions.map (fun a => a.acquisition_id))) 1).1,
         (assignLoop (sortIds (acquisitions.map (fun a => a.acquisition_id))) 1).1,
         [(assignLoop (sortIds (acquisitions.map (fun a => a.acquisition_id))) 1).2 - 1]⟩

theorem assignLoop_map_fst (ids : List PyStr) (k : Nat) :
    ((assignLoop ids k).1).map Prod.fst = ids := by
  induction ids generalizing k with
  | nil => rfl
  | cons x xs ih => simp [assignLoop, ih (k + 1)]

theorem assignLoop_map_snd (ids : List PyStr) (k : Nat) :
    ((assignLoop ids k).1).map Prod.snd = (List.range' k ids.length).map sceneStr := by
  induction ids generalizing k with
  | nil => rfl
  | cons x xs ih => simp [assignLoop, ih (k + 1), List.range']

theorem assignLoop_counter (ids : List PyStr) (k : Nat) :
    (assignLoop ids k).2 = k + ids.length := by
  induction ids generalizing k with
  | nil => rfl
  | cons x xs ih =>
    simp only [assignLoop, ih (k + 1), List.length_cons]
    omega

/-- Claim C9: run without `override_output` over acquisitions none of which
carries a scene number and whose ids are distinct, the task succeeds; the
updated ids are exactly the input ids (as a permutation) in sorted order,
the assigned scene strings are the contiguous zero-padded sequence
`001..N` for `N` acquisitions, the per-acquisition log entries mirror the
updates one-for-one, and exactly one orbit rollup entry records
`number_of_scenes = N`.  When some but not all acquisitions already carry a
scene number, the task raises before performing any write. -/
theorem daac_scene_numbering :
    (∀ acquisitions : List Acq,
      (∀ a ∈ acquisitions, a.hasDaacScene = false) →
      (acquisitions.map (fun a => a.acquisition_id)).Nodup →
      ∃ eff, assignDaacSceneNumbers acquisitions false = .ok eff ∧
        (eff.metadataUpdates.map Prod.fst).Perm
          (acquisitions.map (fun a => a.acquisition_id)) ∧
        List.Pairwise (fun a b => charListLe a b = true)
          (eff.metadataUpdates.map Prod.fst) ∧
        eff.metadataUpdates.map Prod.snd =
          (List.range' 1 acquisitions.length).map sceneStr ∧
        eff.acqLogEntries = eff.metadataUpdates ∧
        eff.orbitLogEntries = [acquisitions.length]) ∧
    (∀ acquisitions : List Acq,
      (∃ a ∈ acquisitions, a.hasDaacScene = true) →
      (∃ a ∈ acquisitions, a.hasDaacScene = false) →
      assignDaacSceneNumbers acquisitions false =
        .error "While assigning scene numbers for DAAC, found some with scene numbers already. Aborting...") := by
  constructor
  · intro acqs hall hnodup
    have hfil : acqs.filter (fun a => a.hasDaacScene) = [] :=
      List.filter_eq_nil_iff.mpr (fun a ha => by simp [hall a ha])
    have hdedup : (acqs.map (fun a => a.acquisition_id)).dedup =
        acqs.map (fun a => a.acquisition_id) := List.dedup_eq_self.mpr hnodup
    have hperm : (sortIds (acqs.map (fun a => a.acquisition_id))).Perm
        (acqs.map (fun a => a.acquisition_id)) := by
      unfold sortIds
      rw [hdedup]
      exact List.perm_insertionSort _ _
    have hlen : (sortIds (acqs.map (fun a => a.acquisition_id))).length = acqs.length := by
      rw [hperm.length_eq, List.length_map]
    refine ⟨⟨(assignLoop (sortIds (acqs.map (fun a => a.acquisition_id))) 1).1,
            (assignLoop (sortIds (acqs.map (fun a => a.acquisition_id))) 1).1,
            [(assignLoop (sortIds (acqs.map (fun a => a.acquisition_id))) 1).2 - 1]⟩,
          ?_, ?_, ?_, ?_, rfl, ?_⟩
    · simp [assignDaacSceneNumbers, hfil]
    · rw [assignLoop_map_fst]
      exact hperm
    · rw [assignLoop_map_fst]
      exact List.sorted_insertionSort _ _
    · rw [assignLoop_map_snd, hlen]
    · rw [assignLoop_counter, hlen]
      simp
  · intro acqs ⟨aTrue, haTrue, hTrue⟩ ⟨aFalse, haFalse, hFalse⟩
    have hpos : 0 < (acqs.filter (fun a => a.hasDaacScene)).length :=
      List.length_pos.mpr (fun hnil => by
        have := List.mem_filter.mpr ⟨haTrue, hTrue⟩
        rw [hnil] at this
        exact absurd this (List.not_mem_nil _))
    have hlt : (acqs.filter (fun a => a.hasDaacScene)).length < acqs.length := by
      refine lt_of_le_of_ne (List.length_filter_le _ _) (fun heq => ?_)
      have hallmem := List.filter_length_eq_length.mp heq aFalse haFalse
      rw [hFalse] at hallmem
      exact Bool.false_ne_true hallmem
    simp [assignDaacSceneNumbers, hpos, hlt]

/-- Witness for C9: three fresh acquisitions receive `001`, `002`, `003` in
sorted-identity order with one rollup entry of 3; a mixed pair aborts. -/
theorem daac_scene_numbering_witness :
    (∃ eff,
      assignDaacSceneNumbers
        [⟨"emitC".toList, false⟩, ⟨"emitA".toList, false⟩, ⟨"emitB".toList, false⟩] false =
        .ok eff ∧
      (eff.metadataUpdates.map Prod.fst).Perm
        (["emitC".toList, "emitA".toList, "emitB".toList]) ∧
      List.Pairwise (fun a b => charListLe a b = true) (eff.metadataUpdates.map Prod.fst) ∧
      eff.metadataUpdates.map Prod.snd = (List.range' 1 3).map sceneStr ∧
      eff.acqLogEntries = eff.metadataUpdates ∧
      eff.orbitLogEntries = [3]) ∧
    assignDaacSceneNumbers [⟨"emitA".toList, true⟩, ⟨"emitB".toList, false⟩] false =
      .error "While assigning scene numbers for DAAC, found some with scene numbers already. Aborting..." := by
  constructor
  · have h := daac_scene_numbering.1
      [⟨"emitC".toList, false⟩, ⟨"emitA".toList, false⟩, ⟨"emitB".toList, false⟩]
      (by decide) (by decide)
    simpa using h
  · exact daac_scene_numbering.2 [⟨"emitA".toList, true⟩, ⟨"emitB".toList, false⟩]
      ⟨⟨"emitA".toList, true⟩, by simp, rfl⟩ ⟨⟨"emitB".toList, false⟩, by simp, rfl⟩
